import Mathlib

/-!
# WhiskerModel: the configuration table `Parameters.cpp`

A shallow embedding of `code/src/Parameters.cpp`:

* `Parameters.ctor` is the constructor `Parameters::Parameters()`, written as the
  sequence of assignments of the source, applied to an arbitrary initial object;
* `get_vector` and `stringToFloatVect` are the two free functions, each with its
  `for` loop kept as a loop on the counter `i`.

The header `Parameters.hpp` is not part of the sources, so the field types are read
off the literals that the constructor assigns: a field that receives an integer
literal is an `Int`, a field that receives a decimal literal is a `ℚ` holding the
exact value of that literal, strings are `String`, brace lists are `List`s and a
`btVector3` is a triple of `ℚ`.
-/

set_option autoImplicit false

namespace WhiskerModel

/-! ## Data model -/

/-- Bullet's `btVector3(x, y, z)`: three scalar components. -/
structure btVector3 where
  x : ℚ
  y : ℚ
  z : ℚ
  deriving DecidableEq, Inhabited

/-- The option table of class `Parameters`: one field per member assigned by the
constructor, in the order of the source. -/
structure Parameters where
  DEBUG : Int
  TIME_STEP : ℚ
  NUM_STEP_INT : Int
  TIME_STOP : ℚ
  PRINT : Int
  SAVE : Int
  SAVE_VIDEO : Int
  OBJECT : Int
  WHISKER_NAMES : List String
  WHISKER_INDEX : List Int
  BLOW : Int
  NO_CURVATURE : Int
  NO_MASS : Int
  NO_WHISKERS : Int
  NUM_LINKS : Int
  RHO_BASE : ℚ
  RHO_TIP : ℚ
  E : ℚ
  ZETA : ℚ
  ACTIVE : Int
  dir_param_bp_angles : String
  EXPLORING : Int
  PEG_LOC : btVector3
  PEG_SPEED : ℚ
  RATHEAD_LOC : List ℚ
  RATHEAD_ORIENT : List ℚ
  CPOS : btVector3
  CDIST : ℚ
  CPITCH : ℚ
  CYAW : ℚ
  dir_out : String
  file_video : String
  file_env : String
  file_prism : String
  deriving Inhabited

/-! ## `Parameters::Parameters()` -/

/-- The conditional expression on the right-hand side of line 38,
`ACTIVE ? "../data/whisking_init_angle_sample.csv" : "../data/param_bp_angles.csv"`,
as a function of the value of `ACTIVE` it reads. -/
def select_dir_param_bp_angles (ACTIVE : Int) : String :=
  if ACTIVE ≠ 0 then "../data/whisking_init_angle_sample.csv"
  else "../data/param_bp_angles.csv"

/-- The constructor `Parameters::Parameters()` (lines 5-65): the assignments of the
source, in order, performed on the object `self` as it is when the body starts.
The conditional expression of line 38, `select_dir_param_bp_angles`, reads the field
`ACTIVE` written on line 37. -/
def Parameters.ctor (self : Parameters) : Parameters :=
  -- input arguments for simulator
  let self : Parameters := { self with DEBUG := 0 }
  let self : Parameters := { self with TIME_STEP := 0.01 }
  let self : Parameters := { self with NUM_STEP_INT := 100 }
  let self : Parameters := { self with TIME_STOP := 5 }
  let self : Parameters := { self with PRINT := 0 }
  let self : Parameters := { self with SAVE := 1 }
  let self : Parameters := { self with SAVE_VIDEO := 1 }
  -- collision object type
  let self : Parameters := { self with OBJECT := 4 }
  -- whisker configuration parameters
  let self : Parameters := { self with WHISKER_NAMES := ["LA0", "RA0", "LC1", "RC1"] }
  let self : Parameters := { self with WHISKER_INDEX := [31, 0, 42, 11] }
  let self : Parameters := { self with BLOW := 1 }
  let self : Parameters := { self with NO_CURVATURE := 0 }
  let self : Parameters := { self with NO_MASS := 0 }
  let self : Parameters := { self with NO_WHISKERS := 0 }
  let self : Parameters := { self with NUM_LINKS := 20 }
  let self : Parameters := { self with RHO_BASE := 1260.0 }
  let self : Parameters := { self with RHO_TIP := 1690.0 }
  let self : Parameters := { self with E := 5e9 }
  let self : Parameters := { self with ZETA := 0.32 }
  -- whisking mode
  let self : Parameters := { self with ACTIVE := 1 }
  let self : Parameters :=
    { self with dir_param_bp_angles := select_dir_param_bp_angles self.ACTIVE }
  -- exploring mode
  let self : Parameters := { self with EXPLORING := 0 }
  -- peg
  let self : Parameters := { self with PEG_LOC := ⟨10, 10, 0⟩ }
  let self : Parameters := { self with PEG_SPEED := 10 }
  -- rat position/orientation
  let self : Parameters := { self with RATHEAD_LOC := [0, 0, 0] }
  let self : Parameters := { self with RATHEAD_ORIENT := [0, 0, 0] }
  -- camera
  let self : Parameters := { self with CPOS := ⟨0, 20, 20⟩ }
  let self : Parameters := { self with CDIST := 50 }
  let self : Parameters := { self with CPITCH := -89 }
  let self : Parameters := { self with CYAW := 0 }
  -- input/output file paths
  let self : Parameters := { self with dir_out := "../output/test" }
  let self : Parameters := { self with file_video := "../output/video_test.mp4" }
  let self : Parameters := { self with file_env := "../data/3D_data/rat_habitat/drain_pipe.obj" }
  let self : Parameters := { self with file_prism := "../../../cube1mm.obj" }
  self

/-- The collision object types listed by the comment of lines 16-20. -/
inductive ObjectType where
  | nothing
  | peg
  | wall
  | scan
  | prism
  deriving DecidableEq, Repr

/-- The meaning of a value of `OBJECT` according to the comment of lines 16-20:
0 nothing, 1 peg, 2 wall, 3 object created from a 3D scan, 4 a prism; any other
value names no object type. -/
def ObjectType.ofSelector (OBJECT : Int) : Option ObjectType :=
  if OBJECT = 0 then some ObjectType.nothing
  else if OBJECT = 1 then some ObjectType.peg
  else if OBJECT = 2 then some ObjectType.wall
  else if OBJECT = 3 then some ObjectType.scan
  else if OBJECT = 4 then some ObjectType.prism
  else none

/-! ## `get_vector` -/

/-- The `for` loop of `get_vector` (lines 70-72) from the state in which the counter
is `i` and the vector built so far is `vect`: while `i < N`, push `value` and
increment `i`. The counter never exceeds `N`, so `i++` stays within `int`. -/
def get_vector.loop {F : Type} (value : F) (N : Int) (i : Int) (vect : List F) : List F :=
  if i < N then get_vector.loop value N (i + 1) (vect ++ [value]) else vect
termination_by (N - i).toNat
decreasing_by omega

/-- The function `get_vector(float value, int N)` (lines 68-74): start from the
empty vector and `i = 0`, run the loop, return the vector. `F` is the type of the
float values; the function only copies `value`. -/
def get_vector {F : Type} (value : F) (N : Int) : List F :=
  get_vector.loop value N 0 []

/-! ## `stringToFloatVect` -/

/-- The two exceptions `std::stof` throws: `std::invalid_argument` when no conversion
can be performed (the string has no parseable leading float) and `std::out_of_range`
when the converted value is out of the range of `float`. -/
inductive StofError where
  | invalid_argument
  | out_of_range
  deriving DecidableEq, Repr

/-- The `for` loop of `stringToFloatVect` (lines 80-82) from the state in which the
counter is `i` and the vector built so far is `vect_float`. The counter `int i` is
compared with `vect_string.size()` and takes the values `0, 1, ..., size()`; it is a
natural number here, which is exact for vectors of fewer than `2^31` strings (the
range in which the `i++` of the source does not overflow `int`). The standard-library
function `std::stof(str, &sz)` is the parameter `stof`: it either throws or returns
the converted value together with the number `sz` of characters it consumed. An
exception leaves the loop and the function; `sz` is written and never read. -/
def stringToFloatVect.loop {F : Type} (stof : String → Except StofError (F × Nat))
    (vect_string : List String) (i : Nat) (vect_float : List F) :
    Except StofError (List F) :=
  if h : i < vect_string.length then
    match stof (vect_string.get ⟨i, h⟩) with
    | Except.error e => Except.error e
    | Except.ok (f, _) =>
      stringToFloatVect.loop stof vect_string (i + 1) (vect_float ++ [f])
  else Except.ok vect_float
termination_by vect_string.length - i

/-- The function `stringToFloatVect(std::vector<std::string> vect_string)`
(lines 77-84): start from the empty vector and `i = 0`, run the loop, return the
vector; an exception of `std::stof` propagates to the caller. -/
def stringToFloatVect {F : Type} (stof : String → Except StofError (F × Nat))
    (vect_string : List String) : Except StofError (List F) :=
  stringToFloatVect.loop stof vect_string 0 []

/-! ## `MaterialProfile` density -/

/-- The error `ConfigurationError` of the specification, for a link count below 2. -/
inductive ConfigurationError where
  | link_count_below_two
  deriving DecidableEq, Repr

/-- Modelled from the spec: the per-link density of MaterialProfile (§4.1), whose code
is not among the sources. For link index `i` in `[0, N-1]` the density is linearly
interpolated between the base value, at link 0, and the tip value, at link `N-1`. -/
def linkDensity (base tip : ℚ) (N : Int) (i : Int) : ℚ :=
  base + (tip - base) * i / (N - 1)

/-- Modelled from the spec: the density profile of MaterialProfile (§4.1), whose code
is not among the sources. It fails with `ConfigurationError` if the link count is
below 2 and otherwise lists the density of the links `0, 1, ..., N-1`. -/
def densityProfile (base tip : ℚ) (N : Int) : Except ConfigurationError (List ℚ) :=
  if N < 2 then Except.error ConfigurationError.link_count_below_two
  else Except.ok ((List.range N.toNat).map fun i : ℕ => linkDensity base tip N (i : Int))

/-! ## The default configuration -/

/-- Every member assigned by the constructor has the value of its literal, whatever
the object held before. -/
theorem ctor_fields (p0 : Parameters) :
    (Parameters.ctor p0).TIME_STEP = 1 / 100 ∧ (Parameters.ctor p0).NUM_STEP_INT = 100 ∧
    (Parameters.ctor p0).TIME_STOP = 5 ∧ (Parameters.ctor p0).OBJECT = 4 ∧
    (Parameters.ctor p0).WHISKER_NAMES = ["LA0", "RA0", "LC1", "RC1"] ∧
    (Parameters.ctor p0).WHISKER_INDEX = [31, 0, 42, 11] ∧
    (Parameters.ctor p0).NUM_LINKS = 20 ∧ (Parameters.ctor p0).RHO_BASE = 1260 ∧
    (Parameters.ctor p0).RHO_TIP = 1690 ∧ (Parameters.ctor p0).ACTIVE = 1 := by
  refine ⟨?_, rfl, rfl, rfl, rfl, rfl, rfl, ?_, ?_, rfl⟩ <;>
    simp only [Parameters.ctor] <;> norm_num

/-- The constructor overwrites every member: its result does not depend on the
object it starts from. -/
theorem ctor_const (p0 p1 : Parameters) : Parameters.ctor p0 = Parameters.ctor p1 := rfl

/-- C3: in the configuration built by the constructor, `WHISKER_NAMES` and
`WHISKER_INDEX` have the same length (four names, four plan indices). -/
theorem WHISKER_NAMES_INDEX_same_length :
    ∀ p0 : Parameters,
      (Parameters.ctor p0).WHISKER_NAMES.length = (Parameters.ctor p0).WHISKER_INDEX.length ∧
      (Parameters.ctor p0).WHISKER_NAMES.length = 4 := by
  intro p0
  exact ⟨rfl, rfl⟩

/-- C4: with the timing values set by the constructor, taken as exact rationals,
the number of frames `TIME_STOP / TIME_STEP` is 500 and the number of substeps,
frames times `NUM_STEP_INT`, is 50000. -/
theorem default_frames_and_substeps :
    ∀ p0 : Parameters,
      (Parameters.ctor p0).TIME_STEP = 1 / 100 ∧ (Parameters.ctor p0).NUM_STEP_INT = 100 ∧
      (Parameters.ctor p0).TIME_STOP = 5 ∧
      (Parameters.ctor p0).TIME_STOP / (Parameters.ctor p0).TIME_STEP = 500 ∧
      (Parameters.ctor p0).TIME_STOP / (Parameters.ctor p0).TIME_STEP
        * ((Parameters.ctor p0).NUM_STEP_INT : ℚ) = 50000 := by
  intro p0
  obtain ⟨h1, h2, h3, -⟩ := ctor_fields p0
  refine ⟨h1, h2, h3, ?_, ?_⟩ <;> rw [h1, h3] <;> try rw [h2]
  all_goals norm_num

/-- C6: the `OBJECT` selector set by the constructor is 4, one of the five valid
values 0..4, and it names the prism. -/
theorem default_OBJECT_is_prism :
    ∀ p0 : Parameters,
      (Parameters.ctor p0).OBJECT ∈ [0, 1, 2, 3, 4] ∧ (Parameters.ctor p0).OBJECT = 4 ∧
      ObjectType.ofSelector (Parameters.ctor p0).OBJECT = some ObjectType.prism := by
  intro p0
  have h : (Parameters.ctor p0).OBJECT = 4 := rfl
  rw [h]
  decide

/-- C7: the path `dir_param_bp_angles` is the one selected by `ACTIVE`: the
whisking-sample file for a non-zero `ACTIVE`, the `param_bp_angles` file for
`ACTIVE = 0`; the constructor sets `ACTIVE = 1` before it reads it, so every
constructed object has the whisking-sample path. -/
theorem dir_param_bp_angles_by_ACTIVE :
    (∀ ACTIVE : Int, ACTIVE ≠ 0 →
      select_dir_param_bp_angles ACTIVE = "../data/whisking_init_angle_sample.csv") ∧
    select_dir_param_bp_angles 0 = "../data/param_bp_angles.csv" ∧
    ∀ p0 : Parameters,
      (Parameters.ctor p0).dir_param_bp_angles
        = select_dir_param_bp_angles (Parameters.ctor p0).ACTIVE ∧
      (Parameters.ctor p0).ACTIVE = 1 ∧
      (Parameters.ctor p0).dir_param_bp_angles = "../data/whisking_init_angle_sample.csv" := by
  refine ⟨?_, ?_, ?_⟩
  · intro a ha
    simp [select_dir_param_bp_angles, ha]
  · simp [select_dir_param_bp_angles]
  · intro p0
    exact ⟨rfl, rfl, rfl⟩

/-- Witness of C7 at `ACTIVE = 2`. -/
theorem dir_param_bp_angles_by_ACTIVE_witness :
    (2 : Int) ≠ 0 ∧
    select_dir_param_bp_angles 2 = "../data/whisking_init_angle_sample.csv" :=
  ⟨by decide, dir_param_bp_angles_by_ACTIVE.1 2 (by decide)⟩

/-- C9: with the timing values set by the constructor, `NUM_STEP_INT` is not zero,
the substep size `TIME_STEP / NUM_STEP_INT` is strictly positive, `NUM_STEP_INT`
substeps of that size add up to exactly `TIME_STEP`, so from any time `t` a frame of
`NUM_STEP_INT` substeps ends at `t + TIME_STEP`, and no substep decreases the time. -/
theorem default_substeps_make_a_frame :
    ∀ (p0 : Parameters) (t : ℚ),
      (Parameters.ctor p0).NUM_STEP_INT ≠ 0 ∧
      0 < (Parameters.ctor p0).TIME_STEP / ((Parameters.ctor p0).NUM_STEP_INT : ℚ) ∧
      (List.replicate (Parameters.ctor p0).NUM_STEP_INT.toNat
        ((Parameters.ctor p0).TIME_STEP / ((Parameters.ctor p0).NUM_STEP_INT : ℚ))).sum
        = (Parameters.ctor p0).TIME_STEP ∧
      (fun s : ℚ => s + (Parameters.ctor p0).TIME_STEP
          / ((Parameters.ctor p0).NUM_STEP_INT : ℚ))^[(Parameters.ctor p0).NUM_STEP_INT.toNat] t
        = t + (Parameters.ctor p0).TIME_STEP ∧
      t < t + (Parameters.ctor p0).TIME_STEP / ((Parameters.ctor p0).NUM_STEP_INT : ℚ) ∧
      t < t + (Parameters.ctor p0).TIME_STEP := by
  intro p0 t
  obtain ⟨h1, h2, -⟩ := ctor_fields p0
  rw [h1, h2]
  have hit : ∀ (n : ℕ) (d s : ℚ), (fun s : ℚ => s + d)^[n] s = s + n * d := by
    intro n d
    induction n with
    | zero => intro s; simp
    | succ k ih =>
      intro s
      rw [Function.iterate_succ_apply, ih]
      push_cast
      ring
  have hn : Int.toNat 100 = 100 := rfl
  refine ⟨by decide, by norm_num, ?_, ?_, by norm_num, by norm_num⟩
  · rw [List.sum_replicate, hn]
    norm_num
  · rw [hit, hn]
    norm_num

/-! ## `get_vector` -/

/-- One unfolding of the loop of `get_vector`. -/
theorem get_vector_loop_unfold {F : Type} (value : F) (N i : Int) (vect : List F) :
    get_vector.loop value N i vect
      = if i < N then get_vector.loop value N (i + 1) (vect ++ [value]) else vect := by
  rw [get_vector.loop]

/-- The loop of `get_vector` terminates having appended `N - i` copies of `value`
(none if `N ≤ i`) to the vector it started with. -/
theorem get_vector_loop_eq {F : Type} (value : F) (N : Int) :
    ∀ (n : ℕ) (i : Int) (vect : List F), (N - i).toNat = n →
      get_vector.loop value N i vect = vect ++ List.replicate n value := by
  intro n
  induction n with
  | zero =>
    intro i vect h
    have hi : ¬ i < N := by omega
    rw [get_vector_loop_unfold, if_neg hi]
    simp
  | succ k ih =>
    intro i vect h
    have hi : i < N := by omega
    rw [get_vector_loop_unfold, if_pos hi, ih (i + 1) (vect ++ [value]) (by omega)]
    simp [List.replicate_succ]

/-- The vector returned by `get_vector` is `N` copies of `value`, none if `N < 0`. -/
theorem get_vector_eq_replicate {F : Type} (value : F) (N : Int) :
    get_vector value N = List.replicate N.toNat value := by
  unfold get_vector
  rw [get_vector_loop_eq value N N.toNat 0 [] (by simp)]
  simp

/-- C1: for every value and every integer `N`, `get_vector value N` returns a vector
of length `N` when `N ≥ 0` and of length 0 when `N < 0`, and each of its elements
is `value`. -/
theorem get_vector_length_and_elements {F : Type} (value : F) (N : Int) :
    (if 0 ≤ N then ((get_vector value N).length : Int) = N
      else (get_vector value N).length = 0) ∧
    (∀ k : Fin (get_vector value N).length, (get_vector value N).get k = value) ∧
    get_vector value N = List.replicate (get_vector value N).length value := by
  have h := get_vector_eq_replicate value N
  refine ⟨?_, ?_, ?_⟩
  · split
    · rw [h]; simp; omega
    · rw [h]; simp; omega
  · intro k
    have hk : (get_vector value N).get k ∈ List.replicate N.toNat value := by
      rw [← h]; exact List.get_mem _ _ _
    exact List.eq_of_mem_replicate hk
  · rw [h]; simp

/-! ## `stringToFloatVect` -/

/-- One unfolding of the loop of `stringToFloatVect` when the counter is in range. -/
theorem stringToFloatVect_loop_step {F : Type} (stof : String → Except StofError (F × Nat))
    (v : List String) (i : Nat) (acc : List F) (h : i < v.length) :
    stringToFloatVect.loop stof v i acc
      = match stof (v.get ⟨i, h⟩) with
        | Except.error e => Except.error e
        | Except.ok (f, _) => stringToFloatVect.loop stof v (i + 1) (acc ++ [f]) := by
  rw [stringToFloatVect.loop, dif_pos h]

/-- One unfolding of the loop of `stringToFloatVect` when the counter has reached
the size of the input. -/
theorem stringToFloatVect_loop_done {F : Type} (stof : String → Except StofError (F × Nat))
    (v : List String) (i : Nat) (acc : List F) (h : ¬ i < v.length) :
    stringToFloatVect.loop stof v i acc = Except.ok acc := by
  rw [stringToFloatVect.loop, dif_neg h]

/-- The loop of `stringToFloatVect` terminates, in one of two ways: either every
string from position `i` on converts and the loop returns the vector extended by
their values in order, or it stops at the first position `k ≥ i` whose string does
not convert and throws the exception of that string. -/
theorem stringToFloatVect_loop_spec {F : Type} (stof : String → Except StofError (F × Nat))
    (v : List String) :
    ∀ (n i : ℕ) (acc : List F), v.length - i = n →
      (∃ vals : List F,
        List.Forall₂ (fun s f => ∃ sz, stof s = Except.ok (f, sz)) (v.drop i) vals ∧
        stringToFloatVect.loop stof v i acc = Except.ok (acc ++ vals)) ∨
      (∃ (k : ℕ) (hk : k < v.length) (e : StofError), i ≤ k ∧
        stof (v.get ⟨k, hk⟩) = Except.error e ∧
        (∀ (j : ℕ) (hj : j < v.length), i ≤ j → j < k →
          ∃ f sz, stof (v.get ⟨j, hj⟩) = Except.ok (f, sz)) ∧
        stringToFloatVect.loop stof v i acc = Except.error e) := by
  intro n
  induction n with
  | zero =>
    intro i acc h
    have hi : ¬ i < v.length := by omega
    left
    refine ⟨[], ?_, ?_⟩
    · rw [List.drop_of_length_le (by omega)]
      exact List.Forall₂.nil
    · rw [stringToFloatVect_loop_done stof v i acc hi]
      simp
  | succ m ih =>
    intro i acc h
    have hi : i < v.length := by omega
    rw [stringToFloatVect_loop_step stof v i acc hi]
    cases hs : stof (v.get ⟨i, hi⟩) with
    | error e =>
      right
      refine ⟨i, hi, e, le_refl i, hs, ?_, rfl⟩
      intro j _ h1 h2
      omega
    | ok r =>
      obtain ⟨f, sz⟩ := r
      rcases ih (i + 1) (acc ++ [f]) (by omega) with ⟨vals, hvals, hloop⟩ | ⟨k, hk, e, hik, hke, hbefore, hloop⟩
      · left
        refine ⟨f :: vals, ?_, ?_⟩
        · rw [List.drop_eq_getElem_cons hi]
          exact List.Forall₂.cons ⟨sz, by simpa using hs⟩ hvals
        · simp only [hloop]
          simp
      · right
        refine ⟨k, hk, e, by omega, hke, ?_, ?_⟩
        · intro j hj h1 h2
          rcases Nat.eq_or_lt_of_le h1 with heq | hlt
          · subst heq
            exact ⟨f, sz, hs⟩
          · exact hbefore j hj hlt h2
        · simp only [hloop]

/-- What `stringToFloatVect` does, from the loop started at `i = 0` with the empty
vector. -/
theorem stringToFloatVect_spec {F : Type} (stof : String → Except StofError (F × Nat))
    (v : List String) :
    (∃ vals : List F,
      List.Forall₂ (fun s f => ∃ sz, stof s = Except.ok (f, sz)) v vals ∧
      stringToFloatVect stof v = Except.ok vals) ∨
    (∃ (k : ℕ) (hk : k < v.length) (e : StofError),
      stof (v.get ⟨k, hk⟩) = Except.error e ∧
      (∀ (j : ℕ) (hj : j < v.length), j < k →
        ∃ f sz, stof (v.get ⟨j, hj⟩) = Except.ok (f, sz)) ∧
      stringToFloatVect stof v = Except.error e) := by
  rcases stringToFloatVect_loop_spec stof v v.length 0 [] (by simp) with
    ⟨vals, hvals, hloop⟩ | ⟨k, hk, e, _, hke, hbefore, hloop⟩
  · left
    refine ⟨vals, ?_, ?_⟩
    · simpa using hvals
    · simpa [stringToFloatVect] using hloop
  · right
    exact ⟨k, hk, e, hke, fun j hj hjk => hbefore j hj (Nat.zero_le j) hjk, hloop⟩

/-- If the strings of `v` convert to the values `vals`, position by position, then
every string of `v` converts. -/
theorem converts_of_forall₂ {F : Type} (stof : String → Except StofError (F × Nat))
    (v : List String) (vals : List F)
    (h : List.Forall₂ (fun s f => ∃ sz, stof s = Except.ok (f, sz)) v vals) :
    ∀ s ∈ v, ∃ f sz, stof s = Except.ok (f, sz) := by
  induction h with
  | nil => intro s hs; simp at hs
  | cons hab _ ih =>
    intro s hs
    rcases List.mem_cons.mp hs with rfl | hmem
    · obtain ⟨sz, hsz⟩ := hab
      exact ⟨_, sz, hsz⟩
    · exact ih s hmem

/-- C5: for every vector of strings each of which `std::stof` converts,
`stringToFloatVect` returns a vector of the same length whose `i`-th element is the
value `std::stof` converts the `i`-th string to. -/
theorem stringToFloatVect_converts_each {F : Type}
    (stof : String → Except StofError (F × Nat)) (vect_string : List String)
    (hparse : ∀ s ∈ vect_string, ∃ f sz, stof s = Except.ok (f, sz)) :
    ∃ out : List F, stringToFloatVect stof vect_string = Except.ok out ∧
      out.length = vect_string.length ∧
      ∀ (i : ℕ) (hi : i < vect_string.length) (ho : i < out.length),
        ∃ sz, stof (vect_string.get ⟨i, hi⟩) = Except.ok (out.get ⟨i, ho⟩, sz) := by
  rcases stringToFloatVect_spec stof vect_string with
    ⟨vals, hvals, hres⟩ | ⟨k, hk, e, hke, _, _⟩
  · exact ⟨vals, hres, hvals.length_eq.symm, fun i hi ho => hvals.get hi ho⟩
  · obtain ⟨f, sz, hf⟩ := hparse _ (List.get_mem vect_string k hk)
    rw [hf] at hke
    cases hke

/-- Witness of C5: two strings, with a conversion that knows them. -/
theorem stringToFloatVect_converts_each_witness :
    (∀ s ∈ ["1.5", "-2"], ∃ (f : ℚ) (sz : ℕ),
      (fun s : String => if s = "1.5" then Except.ok ((3 / 2 : ℚ), 3)
        else if s = "-2" then Except.ok ((-2 : ℚ), 2)
        else Except.error StofError.invalid_argument) s = Except.ok (f, sz)) ∧
    ∃ out : List ℚ,
      stringToFloatVect (fun s : String => if s = "1.5" then Except.ok ((3 / 2 : ℚ), 3)
        else if s = "-2" then Except.ok ((-2 : ℚ), 2)
        else Except.error StofError.invalid_argument) ["1.5", "-2"] = Except.ok out ∧
      out.length = ["1.5", "-2"].length ∧
      ∀ (i : ℕ) (hi : i < ["1.5", "-2"].length) (ho : i < out.length),
        ∃ sz, (fun s : String => if s = "1.5" then Except.ok ((3 / 2 : ℚ), 3)
          else if s = "-2" then Except.ok ((-2 : ℚ), 2)
          else Except.error StofError.invalid_argument) (["1.5", "-2"].get ⟨i, hi⟩)
            = Except.ok (out.get ⟨i, ho⟩, sz) :=
  ⟨by simp, stringToFloatVect_converts_each _ ["1.5", "-2"] (by simp)⟩

/-- C10: `stringToFloatVect` throws if and only if `std::stof` throws on some input
string, `invalid_argument` (no parseable leading float) or `out_of_range`; when it
throws it returns no vector, and the exception is that of the first string that does
not convert; a string of which `std::stof` consumes only a prefix (`sz` smaller than
its length) is not rejected: its value is the element at its position. -/
theorem stringToFloatVect_fails_iff {F : Type}
    (stof : String → Except StofError (F × Nat)) (vect_string : List String) :
    ((∃ e, stringToFloatVect stof vect_string = Except.error e) ↔
      ∃ s ∈ vect_string, stof s = Except.error StofError.invalid_argument ∨
        stof s = Except.error StofError.out_of_range) ∧
    (∀ e, stringToFloatVect stof vect_string = Except.error e →
      (∀ out, stringToFloatVect stof vect_string ≠ Except.ok out) ∧
      ∃ (k : ℕ) (hk : k < vect_string.length),
        stof (vect_string.get ⟨k, hk⟩) = Except.error e ∧
        ∀ (j : ℕ) (hj : j < vect_string.length), j < k →
          ∃ f sz, stof (vect_string.get ⟨j, hj⟩) = Except.ok (f, sz)) ∧
    (∀ (k : ℕ) (hk : k < vect_string.length) (f : F) (sz : ℕ),
      stof (vect_string.get ⟨k, hk⟩) = Except.ok (f, sz) →
      sz < (vect_string.get ⟨k, hk⟩).length →
      (∀ s ∈ vect_string, ∃ g n, stof s = Except.ok (g, n)) →
      ∃ (out : List F) (ho : k < out.length),
        stringToFloatVect stof vect_string = Except.ok out ∧ out.get ⟨k, ho⟩ = f) := by
  refine ⟨⟨?_, ?_⟩, ?_, ?_⟩
  · rintro ⟨e, he⟩
    rcases stringToFloatVect_spec stof vect_string with
      ⟨vals, _, hres⟩ | ⟨k, hk, e2, hke, _, hres⟩
    · rw [hres] at he
      cases he
    · refine ⟨_, List.get_mem vect_string k hk, ?_⟩
      cases e2 with
      | invalid_argument => exact Or.inl hke
      | out_of_range => exact Or.inr hke
  · rintro ⟨s, hs, hfail⟩
    rcases stringToFloatVect_spec stof vect_string with
      ⟨vals, hvals, _⟩ | ⟨k, hk, e2, _, _, hres⟩
    · obtain ⟨f, sz, hf⟩ := converts_of_forall₂ stof vect_string vals hvals s hs
      rw [hf] at hfail
      rcases hfail with h | h <;> cases h
    · exact ⟨e2, hres⟩
  · intro e he
    refine ⟨?_, ?_⟩
    · intro out hout
      rw [hout] at he
      cases he
    · rcases stringToFloatVect_spec stof vect_string with
        ⟨vals, _, hres⟩ | ⟨k, hk, e2, hke, hbefore, hres⟩
      · rw [hres] at he
        cases he
      · rw [hres] at he
        cases he
        exact ⟨k, hk, hke, hbefore⟩
  · intro k hk f sz hf _ hall
    rcases stringToFloatVect_spec stof vect_string with
      ⟨vals, hvals, hres⟩ | ⟨j, hj, e2, hje, _, _⟩
    · have hk2 : k < vals.length := by rw [← hvals.length_eq]; exact hk
      obtain ⟨sz2, h2⟩ := hvals.get hk hk2
      rw [hf] at h2
      cases h2
      exact ⟨vals, hk2, hres, rfl⟩
    · obtain ⟨g, n, hg⟩ := hall _ (List.get_mem vect_string j hj)
      rw [hg] at hje
      cases hje

/-- Witness of C10: `"1.5abc"` has the numeric prefix `"1.5"` of 3 characters and
3 more characters after it; a conversion that consumes the prefix makes
`stringToFloatVect` return the value of the prefix. -/
theorem stringToFloatVect_fails_iff_witness :
    ∃ (out : List ℚ) (ho : 0 < out.length),
      stringToFloatVect (fun s : String => if s = "1.5abc" then Except.ok ((3 / 2 : ℚ), 3)
        else Except.error StofError.invalid_argument) ["1.5abc"] = Except.ok out ∧
      out.get ⟨0, ho⟩ = 3 / 2 :=
  (stringToFloatVect_fails_iff (fun s : String => if s = "1.5abc" then Except.ok ((3 / 2 : ℚ), 3)
      else Except.error StofError.invalid_argument) ["1.5abc"]).2.2 0 (by decide) (3 / 2) 3
    (by simp) (by decide) (by simp)

/-- An input on which `stringToFloatVect` throws: the second string does not
convert, the exception is its `invalid_argument` and no vector is returned. -/
theorem stringToFloatVect_throws_example :
    stringToFloatVect (fun s : String => if s = "1.5" then Except.ok ((3 / 2 : ℚ), 3)
      else Except.error StofError.invalid_argument) ["1.5", "abc", "1.5"]
      = Except.error StofError.invalid_argument := by
  simp [stringToFloatVect, stringToFloatVect.loop]

/-! ## Density profile -/

/-- The interpolated density is the base value at link 0. -/
theorem linkDensity_zero (base tip : ℚ) (N : Int) : linkDensity base tip N 0 = base := by
  simp [linkDensity]

/-- The interpolated density is the tip value at link `N - 1`, when `N ≥ 2`. -/
theorem linkDensity_last (base tip : ℚ) (N : Int) (hN : 2 ≤ N) :
    linkDensity base tip N (N - 1) = tip := by
  have h2 : (2 : ℚ) ≤ (N : ℚ) := by exact_mod_cast hN
  have h : (N : ℚ) - 1 ≠ 0 := by linarith
  unfold linkDensity
  push_cast
  field_simp

/-- The difference of the interpolated density between two links. -/
theorem linkDensity_sub (base tip : ℚ) (N i j : Int) :
    linkDensity base tip N j - linkDensity base tip N i
      = (tip - base) * (((j : ℚ) - (i : ℚ)) / ((N : ℚ) - 1)) := by
  unfold linkDensity
  ring

/-- For `N ≥ 2` the density profile is produced, and it is the list of the
interpolated densities of the links `0..N-1`. -/
theorem densityProfile_ok (base tip : ℚ) (N : Int) (hN : 2 ≤ N) :
    densityProfile base tip N
      = Except.ok ((List.range N.toNat).map fun i : ℕ => linkDensity base tip N (i : Int)) := by
  unfold densityProfile
  rw [if_neg (by omega)]

/-- The properties of the density profile for any base value, tip value and link
count `N ≥ 2`: it has `N` entries, starts at the base value, ends at the tip value
and is monotonic in between (strictly when base and tip differ). -/
theorem densityProfile_props (base tip : ℚ) (N : Int) (hN : 2 ≤ N) :
    ∃ prof : List ℚ, densityProfile base tip N = Except.ok prof ∧
      (prof.length : Int) = N ∧ prof.head? = some base ∧ prof.getLast? = some tip ∧
      (base ≤ tip → prof.Pairwise (fun a b => a ≤ b)) ∧
      (tip ≤ base → prof.Pairwise (fun a b => b ≤ a)) ∧
      (base < tip → prof.Pairwise (fun a b => a < b)) ∧
      (tip < base → prof.Pairwise (fun a b => b < a)) := by
  have h2 : (2 : ℚ) ≤ (N : ℚ) := by exact_mod_cast hN
  have hpos : (0 : ℚ) < (N : ℚ) - 1 := by linarith
  have hstep : ∀ a b : ℕ, a < b → (0 : ℚ) < (((b : Int) : ℚ) - ((a : Int) : ℚ)) / ((N : ℚ) - 1) := by
    intro a b hab
    apply div_pos _ hpos
    have : (a : ℚ) < (b : ℚ) := by exact_mod_cast hab
    push_cast
    linarith
  obtain ⟨m, hm⟩ : ∃ m : ℕ, N.toNat = m + 2 := ⟨N.toNat - 2, by omega⟩
  refine ⟨_, densityProfile_ok base tip N hN, ?_, ?_, ?_, ?_, ?_, ?_, ?_⟩
  · simp only [List.length_map, List.length_range]
    omega
  · rw [hm, List.range_succ_eq_map]
    simp [linkDensity_zero]
  · rw [hm, List.range_succ, List.map_append]
    have hlast : ((m + 1 : ℕ) : Int) = N - 1 := by omega
    rw [List.getLast?_append]
    simp only [List.map_cons, List.map_nil, List.getLast?_singleton, hlast,
      linkDensity_last base tip N hN]
    rfl
  all_goals
    intro hbt
    rw [List.pairwise_map]
    refine List.Pairwise.imp ?_ (List.pairwise_lt_range _)
    intro a b hab
    have hdiff := linkDensity_sub base tip N (a : Int) (b : Int)
    have hs := hstep a b hab
    first
      | linarith [mul_nonneg (sub_nonneg.mpr hbt) hs.le]
      | linarith [mul_nonpos_of_nonpos_of_nonneg (sub_nonpos.mpr hbt) hs.le]
      | linarith [mul_pos (sub_pos.mpr hbt) hs]

/-- C8: the link count set by the constructor is at least 2 and the density profile
of the default material parameters runs, strictly increasing, from the base value
1260 at link 0 to the tip value 1690 at link 19; for any base value, tip value and
`NUM_LINKS ≥ 2` the profile is produced, has `NUM_LINKS` entries, starts at the base
value, ends at the tip value and is monotonic: non-decreasing if base ≤ tip,
non-increasing if tip ≤ base. -/
theorem density_profile_monotone (base tip : ℚ) (NUM_LINKS : Int) (hN : 2 ≤ NUM_LINKS) :
    (∀ p0 : Parameters,
      (Parameters.ctor p0).NUM_LINKS = 20 ∧ 2 ≤ (Parameters.ctor p0).NUM_LINKS ∧
      (Parameters.ctor p0).RHO_BASE = 1260 ∧ (Parameters.ctor p0).RHO_TIP = 1690 ∧
      ∃ prof : List ℚ,
        densityProfile (Parameters.ctor p0).RHO_BASE (Parameters.ctor p0).RHO_TIP
          (Parameters.ctor p0).NUM_LINKS = Except.ok prof ∧
        prof.length = 20 ∧ prof.head? = some 1260 ∧ prof.getLast? = some 1690 ∧
        prof.Pairwise (fun a b => a < b)) ∧
    ∃ prof : List ℚ, densityProfile base tip NUM_LINKS = Except.ok prof ∧
      (prof.length : Int) = NUM_LINKS ∧ prof.head? = some base ∧
      prof.getLast? = some tip ∧
      (base ≤ tip → prof.Pairwise (fun a b => a ≤ b)) ∧
      (tip ≤ base → prof.Pairwise (fun a b => b ≤ a)) := by
  refine ⟨?_, ?_⟩
  · intro p0
    obtain ⟨-, -, -, -, -, -, hl, hb, ht, -⟩ := ctor_fields p0
    rw [hl, hb, ht]
    obtain ⟨prof, hprof, hlen, hhead, hlast, -, -, hlt, -⟩ :=
      densityProfile_props 1260 1690 20 (by decide)
    refine ⟨rfl, by decide, rfl, rfl, prof, hprof, ?_, hhead, hlast, hlt (by norm_num)⟩
    exact_mod_cast hlen
  · obtain ⟨prof, hprof, hlen, hhead, hlast, hle, hge, -, -⟩ :=
      densityProfile_props base tip NUM_LINKS hN
    exact ⟨prof, hprof, hlen, hhead, hlast, hle, hge⟩

/-- Witness of C8 at base 3, tip 1 and 3 links: the profile is `[3, 2, 1]`. -/
theorem density_profile_monotone_witness :
    (2 : Int) ≤ 3 ∧
    ∃ prof : List ℚ, densityProfile 3 1 3 = Except.ok prof ∧
      (prof.length : Int) = 3 ∧ prof.head? = some 3 ∧ prof.getLast? = some 1 ∧
      ((3 : ℚ) ≤ 1 → prof.Pairwise (fun a b => a ≤ b)) ∧
      ((1 : ℚ) ≤ 3 → prof.Pairwise (fun a b => b ≤ a)) :=
  ⟨by decide, (density_profile_monotone 3 1 3 (by decide)).2⟩

/-- The profile of the witness, computed. -/
theorem densityProfile_example : densityProfile 3 1 3 = Except.ok [3, 2, 1] := by
  simp [densityProfile, linkDensity, List.range_succ]
  norm_num

end WhiskerModel
